import Mathlib

/-!
Shallow embedding of the real-time medication checker client
(static/js/med-checker.js) of the Elderly-Medication-Burden-Calculator
repository, together with theorems settling the frozen claims about it.

Modelling conventions:
* DOM state relevant to one medication row is a `RowUI` record: the row's
  live-warning container (`innerHTML`, `style.display`) and the four CSS
  classes that med-checker.js toggles on the row element.
* HTML is modelled as the `String` the code assigns to `innerHTML`, built by
  the same concatenation as the JS template literals (template indentation /
  newlines normalised away; the tag structure and text are kept verbatim).
* JS numbers produced by `parseInt` are modelled as `Option Int`, with `none`
  standing for `NaN`.
* The `await fetch(...)`/`await response.json()` boundary splits
  `checkMedicationRealtime` into a synchronous prefix (`checkStart`) and the
  response continuation (`checkComplete`); the event loop delivers responses
  one at a time, so a sequence of response arrivals is a left fold of
  `checkComplete` (`applyArrivals`).
* `setTimeout`/`clearTimeout` used by `debounce` are modelled by an explicit
  timed trace semantics (`debRun`, `debTrace`): the single shared `timeout`
  variable of the closure is an `Option (Nat × α)` (deadline, captured args).
-/

namespace MedChecker

/-- The empty JS string, named so it can be used in statements. -/
def emptyStr : String := ""

/-- JS String.prototype.trim: strip whitespace from both ends. Implemented
on the character list by structural recursion so that concrete instances
reduce inside the kernel (Lean's own String.trim recurses on byte positions
and does not). -/
def jsTrim (s : String) : String :=
  ⟨((s.data.dropWhile Char.isWhitespace).reverse.dropWhile Char.isWhitespace).reverse⟩

/-- JS String.prototype.toLowerCase, structural version of String.toLower. -/
def jsToLower (s : String) : String :=
  ⟨s.data.map Char.toLower⟩

/-- JS String.prototype.toUpperCase, structural version of String.toUpper. -/
def jsToUpper (s : String) : String :=
  ⟨s.data.map Char.toUpper⟩

/-- A warning object as delivered by the evaluation service
(POST /api/check-medication, field `warnings`). The client never synthesizes
these; `recommendation` and `category` may be absent (`none` models a missing
or `undefined` field). -/
structure Warning where
  severity : String
  icon : String
  title : String
  message : String
  recommendation : Option String
  category : Option String
deriving DecidableEq

/-- The body of a successful JSON response of /api/check-medication. -/
structure CheckResponse where
  success : Bool
  safe : Bool
  warnings : List Warning
deriving DecidableEq

/-- The UI state of one medication row that med-checker.js reads or writes:
the live-warning container's `innerHTML` and `style.display`, and the four
classes `has-high-warning`, `has-moderate-warning`, `has-low-warning`,
`is-safe` toggled on the row element. -/
structure RowUI where
  innerHTML : String
  display : String
  clsHigh : Bool
  clsModerate : Bool
  clsLow : Bool
  clsSafe : Bool
deriving DecidableEq

/-- innerHTML of the loading state (line 77 of med-checker.js). -/
def loadingHTML : String :=
  "<div class=\"checking-loader\"><i class=\"fas fa-spinner fa-spin\"></i> Checking...</div>"

/-- innerHTML written when `data.success` is false (line 107). -/
def errorCheckingHTML : String :=
  "<div class=\"warning-error\">Error checking medication</div>"

/-- innerHTML written by the catch handler (line 112): fetch rejection or
malformed JSON body. -/
def unableToCheckHTML : String :=
  "<div class=\"warning-error\">Unable to check medication</div>"

/-- innerHTML of the transient affirmative notice (lines 122-126). -/
def safeNoticeHTML : String :=
  "<div class=\"warning-safe\"><i class=\"fas fa-check-circle\"></i> No immediate concerns detected</div>"

/-- Truthiness of an optional JS string: `undefined`/`null` and the empty
string are falsy. Used for the ternaries guarding the recommendation and
category blocks. -/
def jsTruthy : Option String → Bool
  | none => false
  | some s => !(s == emptyStr)

/-- The HTML block built for one warning by the template literal in
`displayWarnings` (lines 137-162), whitespace normalised. -/
def renderWarningHTML (w : Warning) : String :=
  "<div class=\"live-warning warning-" ++ w.severity ++ "\">" ++
    "<div class=\"warning-header\">" ++
      "<span class=\"warning-icon\">" ++ w.icon ++ "</span>" ++
      "<span class=\"warning-title\">" ++ w.title ++ "</span>" ++
      "<span class=\"warning-severity-badge\">" ++ jsToUpper w.severity ++ "</span>" ++
    "</div>" ++
    "<div class=\"warning-body\">" ++
      "<p class=\"warning-message\">" ++ w.message ++ "</p>" ++
      (if jsTruthy w.recommendation then
        "<p class=\"warning-recommendation\"><strong>Recommendation:</strong> " ++
          (match w.recommendation with | some r => r | none => emptyStr) ++ "</p>"
       else emptyStr) ++
      (if jsTruthy w.category then
        "<p class=\"warning-category\"><strong>Category:</strong> " ++
          (match w.category with | some c => c | none => emptyStr) ++ "</p>"
       else emptyStr) ++
    "</div>" ++
  "</div>"

/-- `displayWarnings(container, warnings, isSafe)` (lines 119-172), acting on
the container part of a `RowUI`. The JS guard `!warnings || warnings.length
=== 0` collapses to `warnings.isEmpty` under the embedding (an absent
`warnings` field is embedded as `[]`). In the safe branch the code also
schedules a `setTimeout` that sets `display` to none 2000ms later; that
deferred effect is outside the immediate state transition modelled here.
The `warnings.map(...).join('')` build renders the list in the order given:
no sorting of any kind is performed. -/
def displayWarnings (ui : RowUI) (warnings : List Warning) (isSafe : Bool) : RowUI :=
  if warnings.isEmpty then
    if isSafe then
      { ui with innerHTML := safeNoticeHTML }
    else
      { ui with display := "none" }
  else
    { ui with
      innerHTML := String.join (warnings.map renderWarningHTML),
      display := "block" }

/-- `updateRowStyling(row, warnings)` (lines 177-197): remove the four
severity/safe classes, then re-add exactly one chosen from the warnings
alone. -/
def updateRowStyling (ui : RowUI) (warnings : List Warning) : RowUI :=
  let ui := { ui with clsHigh := false, clsModerate := false, clsLow := false, clsSafe := false }
  if warnings.isEmpty then
    { ui with clsSafe := true }
  else
    let hasHigh := warnings.any (fun w => w.severity == "high")
    let hasModerate := warnings.any (fun w => w.severity == "moderate")
    if hasHigh then { ui with clsHigh := true }
    else if hasModerate then { ui with clsModerate := true }
    else { ui with clsLow := true }

/-- The success-continuation of `checkMedicationRealtime` (lines 101-108):
on `data.success` run `displayWarnings` then `updateRowStyling`, otherwise
overwrite the container with the error notice. -/
def applyResponse (ui : RowUI) (data : CheckResponse) : RowUI :=
  if data.success then
    updateRowStyling (displayWarnings ui data.warnings data.safe) data.warnings
  else
    { ui with innerHTML := errorCheckingHTML }

/-- Outcome of one fetch of /api/check-medication as seen by the
continuation: either a parsed JSON body, or a rejection (network failure or
a body `response.json()` cannot parse), which lands in the catch handler. -/
inductive FetchOutcome where
  | ok (data : CheckResponse)
  | transportError
deriving DecidableEq

/-- The response continuation of `checkMedicationRealtime` (lines 99-113):
parsed bodies go through `applyResponse`, rejections through the catch
handler (line 112), which only rewrites the container's innerHTML. -/
def checkComplete (ui : RowUI) : FetchOutcome → RowUI
  | .ok data => applyResponse ui data
  | .transportError => { ui with innerHTML := unableToCheckHTML }

/-- Responses are delivered by the single-threaded event loop one at a time,
each running `checkComplete` on the row's then-current UI state: a sequence
of arrivals for one row is a left fold, in arrival order. The code keeps no
generation counter and never inspects which request a response answers. -/
def applyArrivals (ui : RowUI) (arrivals : List FetchOutcome) : RowUI :=
  arrivals.foldl checkComplete ui

/-- Bool test the spec-side ranking uses: classifies an outcome as one of the
two error paths of `checkMedicationRealtime` (catch handler, or parsed body
with `success` false). -/
def isErrorOutcome : FetchOutcome → Bool
  | .transportError => true
  | .ok data => !data.success

/-- Numeric value of a decimal digit character, `none` otherwise. -/
def decDigitVal (c : Char) : Option Nat :=
  if c.isDigit then some (c.toNat - 48) else none

/-- Numeric value of a hexadecimal digit character, `none` otherwise. -/
def hexDigitVal (c : Char) : Option Nat :=
  if c.isDigit then some (c.toNat - 48)
  else if 'a' ≤ c && c ≤ 'f' then some (c.toNat - 87)
  else if 'A' ≤ c && c ≤ 'F' then some (c.toNat - 55)
  else none

/-- Digit value in the given radix (only 10 and 16 arise). -/
def radixDigitVal (radix : Nat) (c : Char) : Option Nat :=
  if radix == 16 then hexDigitVal c else decDigitVal c

/-- ECMAScript `parseInt(s)` with no radix argument: skip leading whitespace,
read an optional sign, detect a 0x/0X hex marker, then read the longest
leading run of digits; the result is `NaN` (embedded as `none`) when that run
is empty. -/
def jsParseInt (s : String) : Option Int :=
  let cs := s.data.dropWhile Char.isWhitespace
  let signed : Int × List Char :=
    match cs with
    | '-' :: rest => (-1, rest)
    | '+' :: rest => (1, rest)
    | _ => (1, cs)
  let withRadix : Nat × List Char :=
    match signed.2 with
    | '0' :: 'x' :: rest => (16, rest)
    | '0' :: 'X' :: rest => (16, rest)
    | _ => (10, signed.2)
  let ds := withRadix.2.takeWhile (fun c => (radixDigitVal withRadix.1 c).isSome)
  if ds.isEmpty then none
  else
    some (signed.1 *
      Int.ofNat (ds.foldl (fun acc c => acc * withRadix.1 + (radixDigitVal withRadix.1 c).getD 0) 0))

/-- The JS idiom `parseInt(input?.value || d)` used at lines 35 and 48:
an absent input (`input` null, so `input?.value` undefined) or an empty
string value are falsy, so the literal default `d` is parsed (giving `d`);
any other string goes straight to `parseInt`. -/
def jsParseIntOr (v : Option String) (d : Nat) : Option Int :=
  match v with
  | none => some (Int.ofNat d)
  | some s => if s = emptyStr then some (Int.ofNat d) else jsParseInt s

/-- One entry pushed by `getCurrentMedications` (lines 33-36). The
`doses_per_day` field is whatever `parseInt` produced, possibly `NaN`
(embedded as `none`). -/
structure MedicationEntry where
  name : String
  doses_per_day : Option Int
deriving DecidableEq

/-- One .medication-row container as the snapshot reader sees it: the value
of its medication_name input and of its doses_per_day input, each `none`
when the input element is absent from the row. -/
structure FormRow where
  nameValue : Option String
  dosesValue : Option String
deriving DecidableEq

/-- The form state read by the snapshot functions: the med rows in document
order, and the value of the patient-age input (`none` when neither an
element with id age nor an input named age exists). -/
structure FormState where
  rows : List FormRow
  ageValue : Option String
deriving DecidableEq

/-- `getCurrentMedications()` (lines 24-41): keep rows whose name input
exists and has a non-empty trimmed value, pairing the trimmed name with
`parseInt(dosesInput?.value || 1)`. -/
def getCurrentMedications (f : FormState) : List MedicationEntry :=
  f.rows.foldr
    (fun row acc =>
      match row.nameValue with
      | some v =>
          if jsTrim v = emptyStr then acc
          else { name := jsTrim v, doses_per_day := jsParseIntOr row.dosesValue 1 } :: acc
      | none => acc)
    []

/-- `getPatientAge()` (lines 46-49): `parseInt(ageInput?.value || 65)`. -/
def getPatientAge (f : FormState) : Option Int :=
  jsParseIntOr f.ageValue 65

/-- The JSON body POSTed to /api/check-medication (lines 92-96). -/
structure CheckRequest where
  medication_name : String
  existing_medications : List MedicationEntry
  age : Option Int
deriving DecidableEq

/-- The synchronous prefix of `checkMedicationRealtime(inputElement)`
(lines 55-97), up to the `await fetch`: trim the field's value; when empty,
clear and hide the container and return with no request; otherwise show the
loading state, snapshot the sibling medications (dropping entries whose
lowercased name equals the edited name's), and build the request body.
Returns the new row UI together with the request issued, if any. (When the
row has no live-warning container yet, the code first creates an empty one;
the `RowUI` argument is that container's state.) -/
def checkStart (form : FormState) (ui : RowUI) (value : String) : RowUI × Option CheckRequest :=
  let medicationName := jsTrim value
  if medicationName = emptyStr then
    ({ ui with innerHTML := emptyStr, display := "none" }, none)
  else
    let allMeds := getCurrentMedications form
    let existingMeds := allMeds.filter (fun med => !(jsToLower med.name == jsToLower medicationName))
    ({ ui with innerHTML := loadingHTML, display := "block" },
     some { medication_name := medicationName,
            existing_medications := existingMeds,
            age := getPatientAge form })

/-- The single shared timer slot of one `debounce(func, wait)` closure
(lines 8-18): `none` when no timer is pending, otherwise the deadline at
which `func` will run and the arguments captured for it. A single such
closure is created in `initializeMedicationChecker` (line 204) and attached
to the input event of every medication_name field, so this one slot is
shared by the whole form. -/
def debStep (wait t : Nat) (a : α) (_ : Option (Nat × α)) : Option (Nat × α) :=
  some (t + wait, a)

/-- Timer delivery before the event at time `t`: a pending timer whose
deadline has passed fires (the `later` callback clears the slot and runs
`func`); returns the new slot and the fired (deadline, args) list. -/
def fireDue (t : Nat) (s : Option (Nat × α)) : Option (Nat × α) × List (Nat × α) :=
  match s with
  | some p => if p.1 ≤ t then (none, [p]) else (s, [])
  | none => (none, [])

/-- Runs the shared debounce closure over a chronological trace of input
events (time, captured args): before each event any due timer fires, then
the event's `executedFunction` body runs — `clearTimeout(timeout)` followed
by `timeout = setTimeout(later, wait)`, i.e. `debStep`. Returns the final
slot and the fired actions in order. -/
def debRun (wait : Nat) : List (Nat × α) → Option (Nat × α) → Option (Nat × α) × List (Nat × α)
  | [], s => (s, [])
  | (t, a) :: rest, s =>
      let fd := fireDue t s
      let r := debRun wait rest (debStep wait t a fd.1)
      (r.1, fd.2 ++ r.2)

/-- All actions the debounce closure executes for a given input-event trace,
letting the last pending timer (if any) fire after the trace ends. Each
fired pair is (execution time, captured args). -/
def debTrace (wait : Nat) (events : List (Nat × α)) : List (Nat × α) :=
  let r := debRun wait events none
  r.2 ++ r.1.toList

/-- The last element of the cons list `d :: l`. -/
def lastD (d : Nat × α) : List (Nat × α) → Nat × α
  | [] => d
  | x :: xs => lastD x xs

/-- A trace of events starting strictly after time `prev`, chronological,
and with every gap (including the gap to `prev`) shorter than `wait` —
"rapid input all within the debounce window". -/
def rapidFrom (wait : Nat) (prev : Nat) : List (Nat × α) → Bool
  | [] => true
  | (t, _) :: rest => decide (prev < t) && decide (t < prev + wait) && rapidFrom wait t rest

/-- Rank a severity string in the order the spec prescribes for display:
high before moderate before everything else. Used only by the spec-side
comparison sort below; the client code never ranks for ordering. -/
def severityRank (s : String) : Nat :=
  if s == "high" then 0 else if s == "moderate" then 1 else 2

/-- Stable insertion step for the spec-side sort: the inserted warning
(original-earlier) goes before any equal-severity warning already placed. -/
def insertBySeverity (w : Warning) : List Warning → List Warning
  | [] => [w]
  | x :: xs =>
      if severityRank x.severity < severityRank w.severity then x :: insertBySeverity w xs
      else w :: x :: xs

/-- The severity-descending stable sort that the spec says the client applies
before rendering. Defined only so it can be compared with what
`displayWarnings` actually renders; it has no counterpart in med-checker.js. -/
def specSortWarnings (ws : List Warning) : List Warning :=
  ws.foldr insertBySeverity []

/-! Concrete fixtures used by counterexamples and witnesses. -/

/-- A high-severity warning as the service could deliver it. -/
def wHighEx : Warning :=
  { severity := "high", icon := "!", title := "A", message := "ha", recommendation := none,
    category := none }

/-- A moderate-severity warning fixture. -/
def wModEx : Warning :=
  { severity := "moderate", icon := "!", title := "B", message := "mb", recommendation := none,
    category := none }

/-- A low-severity warning fixture. -/
def wLowEx : Warning :=
  { severity := "low", icon := "!", title := "C", message := "lc", recommendation := none,
    category := none }

/-- A row UI in the loading state (as left by checkStart on non-empty input). -/
def uiLoading : RowUI :=
  { innerHTML := loadingHTML, display := "block", clsHigh := false, clsModerate := false,
    clsLow := false, clsSafe := false }

/-- A pristine row UI. -/
def uiBlank : RowUI :=
  { innerHTML := emptyStr, display := "none", clsHigh := false, clsModerate := false,
    clsLow := false, clsSafe := false }

/-- A row UI whose row currently carries the high-severity class. -/
def uiHighPrior : RowUI :=
  { innerHTML := loadingHTML, display := "block", clsHigh := true, clsModerate := false,
    clsLow := false, clsSafe := false }

/-- An empty form fixture. -/
def form0 : FormState := { rows := [], ageValue := none }

/-- The string aspirin, named for use in statements. -/
def aspirinStr : String := "aspirin"

/-- A non-numeric input string. -/
def abcStr : String := "abc"

/-- A form with a row whose doses input holds a non-numeric string, and a
non-numeric age value. -/
def formBadDoses : FormState :=
  { rows := [{ nameValue := some aspirinStr, dosesValue := some abcStr }],
    ageValue := some abcStr }

/-- A whitespace-only input value. -/
def spacesStr : String := "  "

/-- Successive values of a field being typed rapidly. -/
def warStr : String := "war"

/-- Second rapid value. -/
def waStr : String := "wa"

/-- Final rapid value. -/
def aspStr : String := "asp"

/-- Parsed response: success with zero warnings, flagged safe. -/
def safeEmptyOutcome : FetchOutcome :=
  .ok { success := true, safe := true, warnings := [] }

/-- Parsed response: success, not safe, one high warning. -/
def highOutcome : FetchOutcome :=
  .ok { success := true, safe := false, warnings := [wHighEx] }

/-- Parsed response: success, not safe, zero warnings — the unknown
medication / no-match shape. -/
def noMatchOutcome : FetchOutcome :=
  .ok { success := true, safe := false, warnings := [] }

/-- Parsed response whose `success` field is false. -/
def nonSuccessOutcome : FetchOutcome :=
  .ok { success := false, safe := false, warnings := [] }

/-! Theorems. -/

/-- Over a rapid trace, a freshly armed timer never fires before the next
event, so the run just keeps re-arming the shared slot: nothing fires during
the trace and the slot ends holding the last event's deadline and args. -/
theorem debRun_rapid {α : Type} (wait : Nat) :
    ∀ (rest : List (Nat × α)) (prev : Nat) (a : α),
      rapidFrom wait prev rest = true →
      debRun wait rest (some (prev + wait, a)) =
        (some ((lastD (prev, a) rest).1 + wait, (lastD (prev, a) rest).2), []) := by
  intro rest
  induction rest with
  | nil => intro prev a _; rfl
  | cons hd tl ih =>
    intro prev a h
    obtain ⟨t, b⟩ := hd
    rw [rapidFrom, Bool.and_eq_true, Bool.and_eq_true, decide_eq_true_eq, decide_eq_true_eq] at h
    obtain ⟨⟨h1, h2⟩, h3⟩ := h
    have hfire : fireDue t (some (prev + wait, a)) = (some (prev + wait, a), []) := by
      simp only [fireDue]
      rw [if_neg (by omega : ¬ prev + wait ≤ t)]
    calc debRun wait ((t, b) :: tl) (some (prev + wait, a))
        = ((debRun wait tl (debStep wait t b (fireDue t (some (prev + wait, a))).1)).1,
           (fireDue t (some (prev + wait, a))).2 ++
             (debRun wait tl (debStep wait t b (fireDue t (some (prev + wait, a))).1)).2) := rfl
      _ = ((debRun wait tl (some (t + wait, b))).1,
           [] ++ (debRun wait tl (some (t + wait, b))).2) := by rw [hfire]; rfl
      _ = (some ((lastD (t, b) tl).1 + wait, (lastD (t, b) tl).2), []) := by
            rw [ih t b h3]; rfl
      _ = (some ((lastD (prev, a) ((t, b) :: tl)).1 + wait,
                 (lastD (prev, a) ((t, b) :: tl)).2), []) := rfl

/-- Claim C5 (confirmed): the 800ms debounced check is one shared closure
(`debouncedCheck`, line 204) over a single timer slot, attached to every
medication_name input; an input event on any field overwrites that slot
(`clearTimeout` + `setTimeout`, i.e. `debStep`), cancelling whatever field's
check was pending — so at most one debounced check is pending form-wide (the
slot is an `Option`), and for any rapid cross-field burst exactly one check
fires, for the most recently edited field. -/
theorem c5_shared_debounce_last_field_only (wait t0 f0 : Nat) (rest : List (Nat × Nat))
    (hrapid : rapidFrom wait t0 rest = true) :
    debTrace wait ((t0, f0) :: rest) =
      [((lastD (t0, f0) rest).1 + wait, (lastD (t0, f0) rest).2)] := by
  have hrun : debRun wait ((t0, f0) :: rest) none =
      ((debRun wait rest (some (t0 + wait, f0))).1,
       [] ++ (debRun wait rest (some (t0 + wait, f0))).2) := rfl
  rw [debRun_rapid wait rest t0 f0 hrapid] at hrun
  show (debRun wait ((t0, f0) :: rest) none).2 ++
      (debRun wait ((t0, f0) :: rest) none).1.toList = _
  rw [hrun]
  rfl

/-- Witness for C5: three rapid edits at times 0, 100, 200 on fields 1, 2, 3
with an 800ms window make exactly one check fire, at time 1000, for field 3. -/
theorem c5_shared_debounce_last_field_only_witness :
    debTrace 800 ((0, 1) :: [(100, 2), (200, 3)]) =
      [((lastD (0, 1) [(100, 2), (200, 3)]).1 + 800,
        (lastD (0, 1) [(100, 2), (200, 3)]).2)] :=
  c5_shared_debounce_last_field_only 800 0 1 [(100, 2), (200, 3)] (by decide)

/-- Claim C6 (confirmed): N rapid input events on the same field within the
debounce window produce exactly one execution of the debounced action, at
the last event's time plus the wait, and the check it starts issues exactly
one request carrying the field's final (trimmed) value. -/
theorem c6_debounce_single_request_final_value (wait t0 : Nat) (v0 : String)
    (rest : List (Nat × String)) (form : FormState) (ui : RowUI)
    (hrapid : rapidFrom wait t0 rest = true)
    (hval : jsTrim (lastD (t0, v0) rest).2 ≠ emptyStr) :
    debTrace wait ((t0, v0) :: rest) =
      [((lastD (t0, v0) rest).1 + wait, (lastD (t0, v0) rest).2)] ∧
    ((checkStart form ui (lastD (t0, v0) rest).2).2.map CheckRequest.medication_name =
      some (jsTrim (lastD (t0, v0) rest).2)) := by
  constructor
  · have hrun : debRun wait ((t0, v0) :: rest) none =
        ((debRun wait rest (some (t0 + wait, v0))).1,
         [] ++ (debRun wait rest (some (t0 + wait, v0))).2) := rfl
    rw [debRun_rapid wait rest t0 v0 hrapid] at hrun
    show (debRun wait ((t0, v0) :: rest) none).2 ++
        (debRun wait ((t0, v0) :: rest) none).1.toList = _
    rw [hrun]
    rfl
  · simp only [checkStart]
    rw [if_neg hval]
    rfl

/-- Witness for C6: typing war, wa, asp at times 0, 100, 200 within an 800ms
window fires one check at time 1000 whose request carries asp. -/
theorem c6_debounce_single_request_final_value_witness :
    debTrace 800 ((0, warStr) :: [(100, waStr), (200, aspStr)]) =
      [((lastD (0, warStr) [(100, waStr), (200, aspStr)]).1 + 800,
        (lastD (0, warStr) [(100, waStr), (200, aspStr)]).2)] ∧
    ((checkStart form0 uiBlank (lastD (0, warStr) [(100, waStr), (200, aspStr)]).2).2.map
        CheckRequest.medication_name =
      some (jsTrim (lastD (0, warStr) [(100, waStr), (200, aspStr)]).2)) :=
  c6_debounce_single_request_final_value 800 0 warStr [(100, waStr), (200, aspStr)] form0 uiBlank
    (by decide) (by decide)

/-- Claim C8 (confirmed): applying the same result to a row twice in
succession yields exactly the state of applying it once, whatever the
result (warnings, safe, no-match, non-success, transport error): the
container contents and the row classes are recomputed from scratch by every
apply, so nothing accumulates. -/
theorem c8_apply_idempotent (ui : RowUI) (d : FetchOutcome) :
    checkComplete (checkComplete ui d) d = checkComplete ui d := by
  cases d with
  | transportError => rfl
  | ok data =>
    obtain ⟨succ, safeFlag, ws⟩ := data
    cases succ with
    | false => rfl
    | true =>
      cases safeFlag <;> cases hemp : ws.isEmpty <;>
        cases hh : ws.any (fun w => w.severity == "high") <;>
          cases hm : ws.any (fun w => w.severity == "moderate") <;>
            simp [checkComplete, applyResponse, displayWarnings, updateRowStyling, hemp, hh, hm]

/-- Claim C9 (confirmed): a check on a field whose trimmed value is empty
clears and hides the warning container, issues no request, and never shows
the loading state (lines 70-74 return before the loader is written). -/
theorem c9_empty_input_clears_no_request (form : FormState) (ui : RowUI) (v : String)
    (h : jsTrim v = emptyStr) :
    checkStart form ui v =
      ({ ui with innerHTML := emptyStr, display := "none" }, none) := by
  simp only [checkStart]
  rw [if_pos h]

/-- Witness for C9: a whitespace-only value trims to empty, so the container
is cleared and hidden and no request is built. -/
theorem c9_empty_input_clears_no_request_witness :
    checkStart form0 uiLoading spacesStr =
      ({ uiLoading with innerHTML := emptyStr, display := "none" }, none) :=
  c9_empty_input_clears_no_request form0 uiLoading spacesStr (by decide)

/-- Claim C10 (confirmed): for a non-empty warning list the row gets exactly
one styling class — high when any warning has severity high, else moderate
when any has severity moderate, else low — and the previously applied
severity/safe classes are all removed first (the resulting four class bits
are fully determined by the warnings, independent of the prior row state). -/
theorem c10_row_tier_is_highest_severity (ui : RowUI) (ws : List Warning) (hne : ws ≠ []) :
    (updateRowStyling ui ws).clsSafe = false ∧
    (updateRowStyling ui ws).clsHigh = ws.any (fun w => w.severity == "high") ∧
    (updateRowStyling ui ws).clsModerate =
      (!ws.any (fun w => w.severity == "high") && ws.any (fun w => w.severity == "moderate")) ∧
    (updateRowStyling ui ws).clsLow =
      (!ws.any (fun w => w.severity == "high") && !ws.any (fun w => w.severity == "moderate")) := by
  have hemp : ws.isEmpty = false := by
    cases ws with
    | nil => exact absurd rfl hne
    | cons w tl => rfl
  cases hh : ws.any (fun w => w.severity == "high") <;>
    cases hm : ws.any (fun w => w.severity == "moderate") <;>
      simp [updateRowStyling, hemp, hh, hm]

/-- Witness for C10: a row previously styled high, given one low and one
moderate warning, ends with exactly the moderate class set. -/
theorem c10_row_tier_is_highest_severity_witness :
    (updateRowStyling uiHighPrior [wLowEx, wModEx]).clsSafe = false ∧
    (updateRowStyling uiHighPrior [wLowEx, wModEx]).clsHigh =
      [wLowEx, wModEx].any (fun w => w.severity == "high") ∧
    (updateRowStyling uiHighPrior [wLowEx, wModEx]).clsModerate =
      (!([wLowEx, wModEx].any (fun w => w.severity == "high")) &&
        [wLowEx, wModEx].any (fun w => w.severity == "moderate")) ∧
    (updateRowStyling uiHighPrior [wLowEx, wModEx]).clsLow =
      (!([wLowEx, wModEx].any (fun w => w.severity == "high")) &&
        !([wLowEx, wModEx].any (fun w => w.severity == "moderate"))) :=
  c10_row_tier_is_highest_severity uiHighPrior [wLowEx, wModEx] (by decide)

/-- Claim C3 (corrected): on a successful response with zero warnings not
flagged safe (the unknown-medication path), the warning surface is hidden
(display none, contents untouched) and no error is shown — but, contrary to
the claim, the row does not stay unstyled: `updateRowStyling` is still called
with the empty list and therefore clears the severity classes and adds the
safe class. This equation pins the whole resulting state for every prior
state. -/
theorem c3_no_match_hides_and_marks_safe (ui : RowUI) :
    checkComplete ui (.ok { success := true, safe := false, warnings := [] }) =
      { ui with display := "none", clsHigh := false, clsModerate := false,
                clsLow := false, clsSafe := true } := rfl

/-- Counterexample to claim C3 as stated: after the no-match response the
row carries the is-safe styling class, refuting "no severity or safe styling
is applied to the row". -/
theorem c3_unknown_med_gets_safe_class :
    (checkComplete uiLoading noMatchOutcome).clsSafe = true := rfl

/-- Claim C4 (corrected): the snapshot read is total and a missing input or
an empty value does degrade to the defaults (doses 1, age 65) — but only
because the empty string is falsy; a non-empty non-numeric value reaches
parseInt itself and yields NaN, not the default (see the counterexample). -/
theorem c4_missing_or_empty_inputs_default (f : FormState) (nm : String) (dv : Option String)
    (hf : f.rows = [{ nameValue := some nm, dosesValue := dv }])
    (hnm : jsTrim nm ≠ emptyStr)
    (hdv : dv = none ∨ dv = some emptyStr)
    (ha : f.ageValue = none ∨ f.ageValue = some emptyStr) :
    getCurrentMedications f = [{ name := jsTrim nm, doses_per_day := some 1 }] ∧
    getPatientAge f = some 65 := by
  constructor
  · simp only [getCurrentMedications, hf, List.foldr]
    rw [if_neg hnm]
    rcases hdv with h | h <;> simp [jsParseIntOr, h]
  · rcases ha with h | h <;> simp [getPatientAge, jsParseIntOr, h]

/-- Witness for C4: a single row named aspirin with no doses input and no
age input reads as doses 1 and age 65. -/
theorem c4_missing_or_empty_inputs_default_witness :
    getCurrentMedications { rows := [{ nameValue := some aspirinStr, dosesValue := none }],
                            ageValue := none } =
      [{ name := jsTrim aspirinStr, doses_per_day := some 1 }] ∧
    getPatientAge { rows := [{ nameValue := some aspirinStr, dosesValue := none }],
                    ageValue := none } = some 65 :=
  c4_missing_or_empty_inputs_default
    { rows := [{ nameValue := some aspirinStr, dosesValue := none }], ageValue := none }
    aspirinStr none rfl (by decide) (Or.inl rfl) (Or.inl rfl)

/-- Counterexample to claim C4 as stated: a doses input holding the
non-numeric string abc does not degrade to the default 1 — parseInt returns
NaN (none), a non-integer value; likewise for the age. The read still does
not fail (the functions are total), but the claimed defaulting is refuted. -/
theorem c4_nonnumeric_doses_gives_nan :
    getCurrentMedications formBadDoses =
      [{ name := aspirinStr, doses_per_day := none }] ∧
    getPatientAge formBadDoses = none := by decide

/-- Claim C7 (corrected): on either error path — transport failure /
malformed body (catch handler) or a parsed body with success false — the
row's severity styling and the container's visibility are left exactly as
they were, any prior warnings are cleared (the container's contents are
replaced by a single notice div), and the continuation is a total function
(no exception escapes to the page). Contrary to the claim, the two paths
show different notices: Unable to check medication for transport errors,
but Error checking medication for non-success bodies. -/
theorem c7_error_paths_preserve_styling (ui : RowUI) (d : FetchOutcome)
    (h : isErrorOutcome d = true) :
    (checkComplete ui d).display = ui.display ∧
    (checkComplete ui d).clsHigh = ui.clsHigh ∧
    (checkComplete ui d).clsModerate = ui.clsModerate ∧
    (checkComplete ui d).clsLow = ui.clsLow ∧
    (checkComplete ui d).clsSafe = ui.clsSafe ∧
    (d = FetchOutcome.transportError →
      (checkComplete ui d).innerHTML = unableToCheckHTML) ∧
    (∀ data, d = FetchOutcome.ok data →
      (checkComplete ui d).innerHTML = errorCheckingHTML) := by
  cases d with
  | transportError => simp [checkComplete]
  | ok data =>
    obtain ⟨succ, safeFlag, ws⟩ := data
    cases succ with
    | true => simp [isErrorOutcome] at h
    | false => simp [checkComplete, applyResponse]

/-- Witness for C7: a non-success body applied to a row styled high leaves
the styling and visibility intact and swaps in the single error notice. -/
theorem c7_error_paths_preserve_styling_witness :
    (checkComplete uiHighPrior nonSuccessOutcome).display = uiHighPrior.display ∧
    (checkComplete uiHighPrior nonSuccessOutcome).clsHigh = uiHighPrior.clsHigh ∧
    (checkComplete uiHighPrior nonSuccessOutcome).clsModerate = uiHighPrior.clsModerate ∧
    (checkComplete uiHighPrior nonSuccessOutcome).clsLow = uiHighPrior.clsLow ∧
    (checkComplete uiHighPrior nonSuccessOutcome).clsSafe = uiHighPrior.clsSafe ∧
    (nonSuccessOutcome = FetchOutcome.transportError →
      (checkComplete uiHighPrior nonSuccessOutcome).innerHTML = unableToCheckHTML) ∧
    (∀ data, nonSuccessOutcome = FetchOutcome.ok data →
      (checkComplete uiHighPrior nonSuccessOutcome).innerHTML = errorCheckingHTML) :=
  c7_error_paths_preserve_styling uiHighPrior nonSuccessOutcome (by decide)

/-- Counterexample to claim C7 as stated: the notice rendered for a
non-success response is Error checking medication, not the claimed
unable-to-check notice. -/
theorem c7_nonsuccess_notice_text_differs :
    (checkComplete uiHighPrior nonSuccessOutcome).innerHTML = errorCheckingHTML ∧
    errorCheckingHTML ≠ unableToCheckHTML := by
  exact ⟨rfl, by decide⟩

/-- Claim C1 (corrected): checkMedicationRealtime carries no generation
counter and applies every arriving response unconditionally, so the row's
UI is determined by the response that arrives last, not by the newest
request. When the last arrival is a successful response with a non-empty
warning list, the resulting row state is entirely independent of whatever
response (for whatever request) was applied before it, and of the prior UI
state. -/
theorem c1_last_arrival_determines_ui (ui ui' : RowUI) (d2 d2' : FetchOutcome)
    (safeFlag : Bool) (ws : List Warning) (hws : ws ≠ []) :
    applyArrivals ui [d2, .ok { success := true, safe := safeFlag, warnings := ws }] =
    applyArrivals ui' [d2', .ok { success := true, safe := safeFlag, warnings := ws }] := by
  cases ws with
  | nil => exact absurd rfl hws
  | cons w tl =>
    cases hh : (w :: tl).any (fun x => x.severity == "high") <;>
      cases hm : (w :: tl).any (fun x => x.severity == "moderate") <;>
        simp [applyArrivals, checkComplete, applyResponse, displayWarnings,
          updateRowStyling, hh, hm]

/-- Witness for C1's amended statement: a stale warning response arriving
after anything else yields the same row state regardless of the earlier
arrival and prior UI. -/
theorem c1_last_arrival_determines_ui_witness :
    applyArrivals uiLoading
        [safeEmptyOutcome, .ok { success := true, safe := false, warnings := [wHighEx] }] =
    applyArrivals uiBlank
        [FetchOutcome.transportError,
         .ok { success := true, safe := false, warnings := [wHighEx] }] :=
  c1_last_arrival_determines_ui uiLoading uiBlank safeEmptyOutcome FetchOutcome.transportError
    false [wHighEx] (by decide)

set_option maxRecDepth 10000 in
set_option maxHeartbeats 1000000 in
/-- Counterexample to claim C1 as stated: issue g1 then g2 for the same row;
g2's response (one high warning) arrives first, g1's (safe, no warnings)
arrives second. The claim says the UI then reflects only g2's result, i.e.
equals the state reached by applying g2's response alone — but the code
applies g1's late response on top, reverting the row to the older result
(safe notice, is-safe class). -/
theorem c1_out_of_order_reverts_ui :
    applyArrivals uiLoading [highOutcome, safeEmptyOutcome] ≠
      checkComplete uiLoading highOutcome := by decide

/-- With a non-empty list, displayWarnings writes the joined per-warning
blocks, mapped over the list as delivered. -/
theorem displayWarnings_cons_innerHTML (ui : RowUI) (w : Warning) (tl : List Warning)
    (safeFlag : Bool) :
    (displayWarnings ui (w :: tl) safeFlag).innerHTML =
      String.join ((w :: tl).map renderWarningHTML) := by
  have h : ¬((w :: tl).isEmpty = true) := by simp
  simp only [displayWarnings]
  rw [if_neg h]

/-- With a non-empty list, displayWarnings makes the container visible. -/
theorem displayWarnings_cons_display (ui : RowUI) (w : Warning) (tl : List Warning)
    (safeFlag : Bool) :
    (displayWarnings ui (w :: tl) safeFlag).display = "block" := by
  have h : ¬((w :: tl).isEmpty = true) := by simp
  simp only [displayWarnings]
  rw [if_neg h]

/-- Claim C2 (corrected): displayWarnings renders the warning blocks exactly
in the order the service delivered them — the list is mapped to HTML as-is
and concatenated; no severity sort (nor any reordering) is applied before
rendering. The delivered order is preserved in full, so equal-severity
entries do keep their service order, but high does not come before moderate
or low unless the service already sent it first. -/
theorem c2_rendered_in_delivered_order (ui : RowUI) (ws : List Warning) (safeFlag : Bool)
    (hne : ws ≠ []) :
    (displayWarnings ui ws safeFlag).innerHTML = String.join (ws.map renderWarningHTML) ∧
    (displayWarnings ui ws safeFlag).display = "block" := by
  cases ws with
  | nil => exact absurd rfl hne
  | cons w tl =>
    exact ⟨displayWarnings_cons_innerHTML ui w tl safeFlag,
           displayWarnings_cons_display ui w tl safeFlag⟩

/-- Witness for C2's amended statement at a delivered list that is not
severity-sorted. -/
theorem c2_rendered_in_delivered_order_witness :
    (displayWarnings uiLoading [wLowEx, wHighEx] false).innerHTML =
      String.join ([wLowEx, wHighEx].map renderWarningHTML) ∧
    (displayWarnings uiLoading [wLowEx, wHighEx] false).display = "block" :=
  c2_rendered_in_delivered_order uiLoading [wLowEx, wHighEx] false (by decide)

set_option maxRecDepth 10000 in
set_option maxHeartbeats 1000000 in
/-- Counterexample to claim C2 as stated: when the service delivers a low
warning before a high one, the rendered HTML keeps the low block first,
whereas the claimed severity-descending (stable) order — computed here by
the spec-side specSortWarnings — would put the high block first, and the two
renderings differ. -/
theorem c2_render_order_not_sorted :
    (displayWarnings uiLoading [wLowEx, wHighEx] false).innerHTML =
      renderWarningHTML wLowEx ++ renderWarningHTML wHighEx ∧
    specSortWarnings [wLowEx, wHighEx] = [wHighEx, wLowEx] ∧
    renderWarningHTML wLowEx ++ renderWarningHTML wHighEx ≠
      renderWarningHTML wHighEx ++ renderWarningHTML wLowEx := by decide

end MedChecker
